import Mathlib

/-
Verification development for the API_IMAGE_STORAGE repository.

The repository contains two Python source files:
  - main.py            (namespace MainPy below)
  - main_comentado.py  (namespace ComentadoPy below)

Both define a FastAPI file-upload service: a ConnectionManager for
websocket listeners, an upload endpoint, two listing endpoints and a
download endpoint.  main_comentado.py additionally validates uploads
(extension allow-list, 10 MiB size ceiling) and guards downloads with a
resolved-path string comparison; main.py has none of those checks.

Shallow embedding conventions:
  - Paths are lists of components (PathC).  Path.resolve is modelled as
    lexical normalisation of "", "." and ".." components against a
    current working directory (the model file system has no symlinks).
  - The file system is a list of (path, entry) pairs; an entry is a
    directory or a file with byte content (List Nat).
  - HTTPException is modelled by the HErr error type carried in Except;
    detail strings are kept short but distinguish the classifications.
  - The uploaded file object is UpFile: an optional filename plus a byte
    stream with an explicit cursor position (seek and tell are modelled).
  - Python list.remove is listRemove and raises ValueError when the
    element is absent, exactly as the source does.
  - The websocket send inside broadcast is an arbitrary function
    Conn -> String -> Except String Unit supplied by the environment;
    broadcastAttempts returns the list of connections to which delivery
    was attempted, in iteration order.
-/

/-! ## String and character helpers (Python semantics) -/

def splitSlashAux : List Char → List Char → List String
  | [], acc => [String.mk acc.reverse]
  | c :: cs, acc =>
    if c = '/' then String.mk acc.reverse :: splitSlashAux cs []
    else splitSlashAux cs (c :: acc)

/-- Split a string on the slash character, as Python path parsing does. -/
def splitSlash (s : String) : List String :=
  splitSlashAux s.data []

/-- Python str.lower for the ASCII range used by file extensions. -/
def strToLower (s : String) : String :=
  String.mk (s.data.map Char.toLower)

/-- Python str.startswith on the underlying character lists. -/
def strStartsWith : List Char → List Char → Bool
  | _, [] => true
  | [], _ :: _ => false
  | c :: cs, p :: ps => if c = p then strStartsWith cs ps else false

/-- Everything after the first underscore: models name.split(chr(95), 1)[1]. -/
def splitAfterUnderscore : List Char → List Char
  | [] => []
  | c :: cs => if c = '_' then cs else splitAfterUnderscore cs

/-- Last component of a component list, or the empty string. -/
def lastName : List String → String
  | [] => ""
  | [x] => x
  | _ :: x :: xs => lastName (x :: xs)

/-- Index of the last dot in a character list, as Python str.rfind. -/
def rfindDot : List Char → Option Nat
  | [] => none
  | c :: cs =>
    match rfindDot cs with
    | some i => some (i + 1)
    | none => if c = '.' then some 0 else none

/-! ## Path model -/

/-- A file system path as a list of components; absolute, root is []. -/
abbrev PathC := List String

/-- One step of lexical path normalisation. -/
def resolveStep (acc : PathC) (c : String) : PathC :=
  if c = "" ∨ c = "." then acc
  else if c = ".." then acc.dropLast
  else acc ++ [c]

/-- Path.resolve modelled lexically: normalise components against cwd. -/
def resolve (cwd : PathC) (comps : List String) : PathC :=
  comps.foldl resolveStep cwd

/-- Python str of an absolute pathlib path. -/
def renderPath (p : PathC) : String :=
  if p = [] then "/" else p.foldl (fun acc c => acc ++ "/" ++ c) ""

/-- Componentwise containment: the first path is an ancestor of the second.
This is genuine directory containment, used to state what "inside the storage
root" means, as opposed to the string comparison the source performs. -/
def underDir : PathC → PathC → Bool
  | [], _ => true
  | _ :: _, [] => false
  | r :: rs, p :: ps => if r = p then underDir rs ps else false

/-- Python pathlib Path(s).name: the last component after dropping empty
and single-dot components. -/
def pyName (s : String) : String :=
  lastName ((splitSlash s).filter (fun c => decide (c ≠ "" ∧ c ≠ ".")))

/-- Python pathlib Path(s).suffix: from the last dot of the name, provided
that dot is neither the first nor the last character of the name. -/
def pySuffix (s : String) : String :=
  let name := pyName s
  match rfindDot name.data with
  | some i =>
    if 0 < i ∧ i + 1 < name.data.length then String.mk (name.data.drop i)
    else ""
  | none => ""

/-! ## Uploaded file model -/

/-- The multipart upload: optional client filename plus a byte stream with
an explicit cursor, so that seek and tell can be modelled. -/
structure UpFile where
  filename : Option String
  content : List Nat
  pos : Nat
  deriving DecidableEq

/-- file.file.seek(0, 2): move the cursor to the end of the stream. -/
def seekEnd (f : UpFile) : UpFile := { f with pos := f.content.length }

/-- file.file.tell(): the current cursor position. -/
def pyTell (f : UpFile) : Nat := f.pos

/-- file.file.seek(0): move the cursor back to the start. -/
def seekStart (f : UpFile) : UpFile := { f with pos := 0 }

/-- shutil.copyfileobj reads from the current cursor to the end. -/
def readRest (f : UpFile) : List Nat := f.content.drop f.pos

/-- Python f-string rendering of an optional string (None prints as None). -/
def fStr : Option String → String
  | none => "None"
  | some s => s

/-- Python truthiness of file.filename: None and the empty string are falsy. -/
def pyFilenameTruthy : Option String → Bool
  | none => false
  | some s => decide (s ≠ "")

/-- file_ext of main_comentado.py line 147:
Path(file.filename).suffix.lower() if file.filename else the empty string. -/
def extOf (file : UpFile) : String :=
  if pyFilenameTruthy file.filename then strToLower (pySuffix (fStr file.filename))
  else ""

/-- Filename with no extension: missing, or no dot in the final component. -/
def noDotName : Option String → Prop
  | none => True
  | some s => '.' ∉ (pyName s).data

instance (o : Option String) : Decidable (noDotName o) :=
  match o with
  | none => isTrue trivial
  | some s => inferInstanceAs (Decidable ('.' ∉ (pyName s).data))

instance {ε α : Type} [DecidableEq ε] [DecidableEq α] : DecidableEq (Except ε α) :=
  fun a b =>
    match a, b with
    | Except.ok x, Except.ok y => decidable_of_iff (x = y) (by simp)
    | Except.ok _, Except.error _ => isFalse (fun hh => Except.noConfusion hh)
    | Except.error _, Except.ok _ => isFalse (fun hh => Except.noConfusion hh)
    | Except.error x, Except.error y => decidable_of_iff (x = y) (by simp)

/-! ## File system model -/

/-- A directory entry: a subdirectory or a file with its byte content. -/
inductive Entry where
  | dir
  | file (content : List Nat)
  deriving DecidableEq

instance : Inhabited Entry := ⟨Entry.dir⟩

/-- The file system: a list of (absolute path, entry) pairs, in creation
order (iterdir discovery order is the list order). -/
structure FS where
  entries : List (PathC × Entry)
  deriving DecidableEq

/-- Path.exists: some entry has exactly this path. -/
def pathExists (fs : FS) (p : PathC) : Prop :=
  ∃ e ∈ fs.entries, e.1 = p

instance (fs : FS) (p : PathC) : Decidable (pathExists fs p) := by
  unfold pathExists; infer_instance

/-- Path.is_dir: the path is recorded as a directory. -/
def isDirAt (fs : FS) (p : PathC) : Prop :=
  (p, Entry.dir) ∈ fs.entries

instance (fs : FS) (p : PathC) : Decidable (isDirAt fs p) := by
  unfold isDirAt; infer_instance

/-- Path.iterdir: the direct children of p, each as (name, entry). -/
def childrenOf (fs : FS) (p : PathC) : List (String × Entry) :=
  fs.entries.filterMap (fun e =>
    if e.1 ≠ [] ∧ e.1.dropLast = p then some (lastName e.1, e.2) else none)

/-- Path.mkdir(exist_ok=True): create the directory unless already present. -/
def mkdirExistOk (fs : FS) (p : PathC) : FS :=
  if pathExists fs p then fs else FS.mk (fs.entries ++ [(p, Entry.dir)])

/-- open("wb") followed by a full copy: create or overwrite the file. -/
def writeFile (fs : FS) (p : PathC) (c : List Nat) : FS :=
  if pathExists fs p then
    FS.mk (fs.entries.map (fun e => if e.1 = p then (p, Entry.file c) else e))
  else FS.mk (fs.entries ++ [(p, Entry.file c)])

/-- The byte content served by FileResponse for an existing file path. -/
def readFile (fs : FS) (p : PathC) : List Nat :=
  match fs.entries.find? (fun e => decide (e.1 = p)) with
  | some (_, Entry.file c) => c
  | _ => []

/-- os.stat of a possibly dot-dotted path, as performed by Path.exists() on
an unresolved path: walk the components from cwd; an empty or single-dot
component is skipped, dot-dot moves to the parent, and any other component
must exist in the file system (and, when it is not the last component, be a
directory) for the walk to continue.  Returns the resolved location on
success and none when the walk fails (ENOENT or ENOTDIR), in which case
Path.exists() is False. -/
def statWalk (fs : FS) : PathC → List String → Option PathC
  | acc, [] => some acc
  | acc, c :: rest =>
    if c = "" ∨ c = "." then statWalk fs acc rest
    else if c = ".." then statWalk fs acc.dropLast rest
    else if rest = [] then
      if pathExists fs (acc ++ [c]) then some (acc ++ [c]) else none
    else
      if isDirAt fs (acc ++ [c]) then statWalk fs (acc ++ [c]) rest else none

/-! ## HTTP-level result model -/

/-- HTTPException classifications used by the service. -/
inductive HErr where
  | badRequest (detail : String)
  | payloadTooLarge (detail : String)
  | forbidden (detail : String)
  | notFound (detail : String)
  deriving DecidableEq

/-- The JSON object returned by a successful upload. -/
structure UploadResp where
  file_id : String
  filename : String
  user_id : String
  url : String
  deriving DecidableEq

/-- One element of the listing responses. -/
structure FileEntry where
  user_id : String
  filename : String
  stored_filename : String
  url : String
  deriving DecidableEq

/-- The retrieval URL built by upload and the listing endpoints. -/
def mkUrl (user_id name : String) : String :=
  "http://127.0.0.1:8000/files/" ++ user_id ++ "/" ++ name

/-- safe_filename of the upload endpoints: the generated id, an underscore,
then the original file name. -/
def safe_filename (file_id : String) (filename : String) : String :=
  file_id ++ "_" ++ filename

/-- The display-name recovery used by both listing endpoints:
name.split(chr(95), 1)[1] if the name contains an underscore, else the name. -/
def recoverName (s : String) : String :=
  if '_' ∈ s.data then String.mk (splitAfterUnderscore s.data) else s

/-! ## Connection manager model -/

/-- Python list.remove: drop the first occurrence, raise ValueError if the
element is absent. -/
def listRemove {α : Type} [DecidableEq α] : List α → α → Except String (List α)
  | [], _ => Except.error "ValueError"
  | x :: xs, a =>
    if x = a then Except.ok xs
    else Except.map (fun l => x :: l) (listRemove xs a)

/-- The try/except Exception: pass around one send call: any error is
swallowed and execution continues normally. -/
def trySwallow {ε : Type} (r : Except ε Unit) : Except ε Unit :=
  match r with
  | Except.ok _ => Except.ok ()
  | Except.error _ => Except.ok ()

/-- One operation on the connection registry.  broadcast carries the message
and the delivery behaviour of the environment for each connection. -/
inductive ManagerOp (Conn : Type) where
  | connect (c : Conn)
  | disconnect (c : Conn)
  | broadcast (message : String) (send : Conn → String → Except String Unit)

/-- The operation is not a disconnect (used to state the frame property). -/
def notDisconnect {Conn : Type} : ManagerOp Conn → Prop
  | ManagerOp.disconnect _ => False
  | _ => True

namespace MainPy

/-- The broadcast loop of main.py lines 36-42: iterate over the connections
in list order, attempt one send each inside try/except, return the list of
connections attempted. -/
def broadcastAttempts {Conn : Type} (send : Conn → String → Except String Unit)
    (message : String) : List Conn → Except String (List Conn)
  | [] => Except.ok []
  | c :: rest =>
    match trySwallow (send c message) with
    | Except.error e => Except.error e
    | Except.ok _ =>
      match broadcastAttempts send message rest with
      | Except.error e => Except.error e
      | Except.ok t => Except.ok (c :: t)

/-- Effect of one ConnectionManager operation on active_connections. -/
def applyOp {Conn : Type} [DecidableEq Conn] (s : List Conn) :
    ManagerOp Conn → Except String (List Conn)
  | ManagerOp.connect c => Except.ok (s ++ [c])
  | ManagerOp.disconnect c => listRemove s c
  | ManagerOp.broadcast message send =>
    Except.map (fun _ => s) (broadcastAttempts send message s)

/-- upload_file of main.py lines 57-81: reject an empty user_id, otherwise
create the user directory, store under safe_filename and answer with the
JSON payload.  No extension or size validation is performed. -/
def upload_file (cwd : PathC) (fs : FS) (file : UpFile)
    (user_id : String) (file_id : String) : Except HErr UploadResp × FS :=
  if user_id = "" then (Except.error (HErr.badRequest "user_id is required"), fs)
  else
    let user_dir := cwd ++ ["uploads", user_id]
    let fs1 := mkdirExistOk fs user_dir
    let sname := safe_filename file_id (fStr file.filename)
    let fs2 := writeFile fs1 (user_dir ++ [sname]) (readRest file)
    (Except.ok (UploadResp.mk file_id (fStr file.filename) user_id
      (mkUrl user_id sname)), fs2)

/-- list_user_files of main.py lines 101-115. -/
def list_user_files (cwd : PathC) (fs : FS) (user_id : String) : List FileEntry :=
  let user_dir := cwd ++ ["uploads", user_id]
  if pathExists fs user_dir ∧ isDirAt fs user_dir then
    (childrenOf fs user_dir).filterMap (fun e =>
      match e.2 with
      | Entry.file _ =>
        some (FileEntry.mk user_id (recoverName e.1) e.1 (mkUrl user_id e.1))
      | Entry.dir => none)
  else []

/-- list_all_files of main.py lines 83-99. -/
def list_all_files (cwd : PathC) (fs : FS) : List FileEntry :=
  let root := cwd ++ ["uploads"]
  if pathExists fs root then
    (childrenOf fs root).flatMap (fun d =>
      match d.2 with
      | Entry.dir =>
        (childrenOf fs (root ++ [d.1])).filterMap (fun e =>
          match e.2 with
          | Entry.file _ =>
            some (FileEntry.mk d.1 (recoverName e.1) e.1 (mkUrl d.1 e.1))
          | Entry.dir => none)
      | Entry.file _ => [])
  else []

/-- get_file of main.py lines 117-122: no containment check at all and no
resolve call; Path.exists() stats the unresolved relative path
uploads/user_id/filename component by component (statWalk), so a missing
intermediate component yields 404, and otherwise the OS-resolved target is
served wherever it lies. -/
def get_file (cwd : PathC) (fs : FS) (user_id filename : String) :
    Except HErr (List Nat) :=
  match statWalk fs cwd (["uploads"] ++ splitSlash user_id ++ splitSlash filename) with
  | some p => Except.ok (readFile fs p)
  | none => Except.error (HErr.notFound "File not found")

end MainPy

namespace ComentadoPy

/-- ALLOWED_EXTENSIONS of main_comentado.py line 61. -/
def ALLOWED_EXTENSIONS : List String :=
  [".jpg", ".jpeg", ".png", ".gif", ".webp", ".pdf",
   ".doc", ".docx", ".xlsx", ".xls", ".txt", ".csv"]

/-- MAX_FILE_SIZE of main_comentado.py line 65: 10 MiB. -/
def MAX_FILE_SIZE : Nat := 10 * 1024 * 1024

/-- The broadcast loop of main_comentado.py lines 94-104 (same text as
main.py). -/
def broadcastAttempts {Conn : Type} (send : Conn → String → Except String Unit)
    (message : String) : List Conn → Except String (List Conn)
  | [] => Except.ok []
  | c :: rest =>
    match trySwallow (send c message) with
    | Except.error e => Except.error e
    | Except.ok _ =>
      match broadcastAttempts send message rest with
      | Except.error e => Except.error e
      | Except.ok t => Except.ok (c :: t)

/-- Effect of one ConnectionManager operation, main_comentado.py version. -/
def applyOp {Conn : Type} [DecidableEq Conn] (s : List Conn) :
    ManagerOp Conn → Except String (List Conn)
  | ManagerOp.connect c => Except.ok (s ++ [c])
  | ManagerOp.disconnect c => listRemove s c
  | ManagerOp.broadcast message send =>
    Except.map (fun _ => s) (broadcastAttempts send message s)

/-- upload_file of main_comentado.py lines 134-208: empty user_id check,
extension allow-list check, then size check via seek-to-end, tell and
seek-to-start, and only then directory creation and the write. -/
def upload_file (cwd : PathC) (fs : FS) (file : UpFile)
    (user_id : String) (file_id : String) : Except HErr UploadResp × FS :=
  if user_id = "" then (Except.error (HErr.badRequest "user_id is required"), fs)
  else if extOf file ∈ ALLOWED_EXTENSIONS then
    let f1 := seekEnd file
    let file_size := pyTell f1
    let f2 := seekStart f1
    if file_size > MAX_FILE_SIZE then
      (Except.error (HErr.payloadTooLarge "Archivo muy grande. Tamano maximo: 10MB"), fs)
    else
      let user_dir := cwd ++ ["uploads", user_id]
      let fs1 := mkdirExistOk fs user_dir
      let sname := safe_filename file_id (fStr file.filename)
      let fs2 := writeFile fs1 (user_dir ++ [sname]) (readRest f2)
      (Except.ok (UploadResp.mk file_id (fStr file.filename) user_id
        (mkUrl user_id sname)), fs2)
  else (Except.error (HErr.badRequest "Tipo de archivo no permitido"), fs)

/-- list_user_files of main_comentado.py lines 244-267 (same logic as
main.py). -/
def list_user_files (cwd : PathC) (fs : FS) (user_id : String) : List FileEntry :=
  let user_dir := cwd ++ ["uploads", user_id]
  if pathExists fs user_dir ∧ isDirAt fs user_dir then
    (childrenOf fs user_dir).filterMap (fun e =>
      match e.2 with
      | Entry.file _ =>
        some (FileEntry.mk user_id (recoverName e.1) e.1 (mkUrl user_id e.1))
      | Entry.dir => none)
  else []

/-- list_all_files of main_comentado.py lines 212-240 (same logic as
main.py). -/
def list_all_files (cwd : PathC) (fs : FS) : List FileEntry :=
  let root := cwd ++ ["uploads"]
  if pathExists fs root then
    (childrenOf fs root).flatMap (fun d =>
      match d.2 with
      | Entry.dir =>
        (childrenOf fs (root ++ [d.1])).filterMap (fun e =>
          match e.2 with
          | Entry.file _ =>
            some (FileEntry.mk d.1 (recoverName e.1) e.1 (mkUrl d.1 e.1))
          | Entry.dir => none)
      | Entry.file _ => [])
  else []

/-- The resolved candidate path of the download endpoint:
(UPLOAD_DIR / user_id / filename).resolve(). -/
def resolvedPath (cwd : PathC) (user_id filename : String) : PathC :=
  resolve cwd (["uploads"] ++ splitSlash user_id ++ splitSlash filename)

/-- get_file of main_comentado.py lines 271-291: resolve the path, compare
the rendered string of the resolved path against the rendered string of the
resolved root with str.startswith, answer 403 on mismatch, 404 if the path
does not exist, otherwise serve the file. -/
def get_file (cwd : PathC) (fs : FS) (user_id filename : String) :
    Except HErr (List Nat) :=
  let file_path := resolvedPath cwd user_id filename
  if strStartsWith (renderPath file_path).data (renderPath (resolve cwd ["uploads"])).data then
    if pathExists fs file_path then Except.ok (readFile fs file_path)
    else Except.error (HErr.notFound "File not found")
  else Except.error (HErr.forbidden "Acceso denegado")

end ComentadoPy

/-! ## Helper lemmas -/

theorem trySwallow_eq_ok {ε : Type} (r : Except ε Unit) : trySwallow r = Except.ok () := by
  cases r <;> rfl

theorem mainBroadcastAttempts_ok {Conn : Type}
    (send : Conn → String → Except String Unit) (message : String)
    (conns : List Conn) :
    MainPy.broadcastAttempts send message conns = Except.ok conns := by
  induction conns with
  | nil => rfl
  | cons c rest ih => simp [MainPy.broadcastAttempts, trySwallow_eq_ok, ih]

theorem comBroadcastAttempts_ok {Conn : Type}
    (send : Conn → String → Except String Unit) (message : String)
    (conns : List Conn) :
    ComentadoPy.broadcastAttempts send message conns = Except.ok conns := by
  induction conns with
  | nil => rfl
  | cons c rest ih => simp [ComentadoPy.broadcastAttempts, trySwallow_eq_ok, ih]

theorem applyOp_eqv {Conn : Type} [DecidableEq Conn] (s : List Conn)
    (op : ManagerOp Conn) : MainPy.applyOp s op = ComentadoPy.applyOp s op := by
  cases op with
  | connect c => rfl
  | disconnect c => rfl
  | broadcast message send =>
    simp [MainPy.applyOp, ComentadoPy.applyOp,
      mainBroadcastAttempts_ok, comBroadcastAttempts_ok]

theorem filterMap_nil_of {α β : Type} (f : α → Option β) (l : List α)
    (h : ∀ a ∈ l, f a = none) : l.filterMap f = [] := by
  induction l with
  | nil => rfl
  | cons a l ih =>
    rw [List.filterMap_cons, h a (List.mem_cons_self a l)]
    exact ih (fun x hx => h x (List.mem_cons_of_mem _ hx))

theorem sdata_append (a b : String) : (a ++ b).data = a.data ++ b.data := by
  cases a; cases b; rfl

theorem splitAfterUnderscore_app (idc rest : List Char) (h : '_' ∉ idc) :
    splitAfterUnderscore (idc ++ '_' :: rest) = rest := by
  induction idc with
  | nil => simp [splitAfterUnderscore]
  | cons c cs ih =>
    have hc : c ≠ '_' := fun e => h (e ▸ List.mem_cons_self c cs)
    have hcs : '_' ∉ cs := fun m => h (List.mem_cons_of_mem _ m)
    simp [splitAfterUnderscore, hc, ih hcs]

theorem recover_safe_filename (file_id orig : String) (h : '_' ∉ file_id.data) :
    recoverName (safe_filename file_id orig) = orig := by
  have hdata : (safe_filename file_id orig).data = file_id.data ++ '_' :: orig.data := by
    simp [safe_filename, sdata_append]
  have hmem : '_' ∈ (safe_filename file_id orig).data := by
    rw [hdata]; exact List.mem_append_right _ (List.mem_cons_self _ _)
  rw [recoverName, if_pos hmem, hdata, splitAfterUnderscore_app _ _ h]

theorem rfindDot_none (cs : List Char) (h : '.' ∉ cs) : rfindDot cs = none := by
  induction cs with
  | nil => rfl
  | cons c cs ih =>
    have hc : c ≠ '.' := fun e => h (e ▸ List.mem_cons_self _ _)
    have hcs : '.' ∉ cs := fun m => h (List.mem_cons_of_mem _ m)
    simp [rfindDot, ih hcs, hc]

theorem extOf_empty_of_noDot (file : UpFile) (h : noDotName file.filename) :
    extOf file = "" := by
  rcases hf : file.filename with _ | s
  · simp [extOf, pyFilenameTruthy, hf]
  · rw [hf] at h
    have h' : '.' ∉ (pyName s).data := h
    by_cases hs : s = ""
    · simp [extOf, pyFilenameTruthy, hf, hs]
    · simp [extOf, pyFilenameTruthy, hf, hs, fStr, pySuffix,
        rfindDot_none _ h', strToLower]

theorem com_upload_ok (cwd : PathC) (fs : FS) (file : UpFile)
    (user_id file_id : String) (hu : user_id ≠ "")
    (hext : extOf file ∈ ComentadoPy.ALLOWED_EXTENSIONS)
    (hsize : ¬ file.content.length > ComentadoPy.MAX_FILE_SIZE) :
    ComentadoPy.upload_file cwd fs file user_id file_id
      = (Except.ok (UploadResp.mk file_id (fStr file.filename) user_id
          (mkUrl user_id (safe_filename file_id (fStr file.filename)))),
         writeFile (mkdirExistOk fs (cwd ++ ["uploads", user_id]))
           ((cwd ++ ["uploads", user_id]) ++ [safe_filename file_id (fStr file.filename)])
           file.content) := by
  simp [ComentadoPy.upload_file, hu, hext, pyTell, seekEnd, seekStart, readRest, hsize]

/-! ## Claim theorems -/

/-- C2: for every list of registered connections and every message, broadcast
attempts delivery to each registered connection exactly once, in registration
order (the attempt trace equals the connection list); a delivery failure on
one connection is swallowed and does not prevent the attempts on the
remaining connections, and no exception propagates to the caller of
broadcast (the result is always ok, for every send behaviour, in both
source files). -/
theorem c2_broadcast_total {Conn : Type} [DecidableEq Conn]
    (conns : List Conn) (message : String)
    (send : Conn → String → Except String Unit) :
    MainPy.broadcastAttempts send message conns = Except.ok conns
    ∧ MainPy.applyOp conns (ManagerOp.broadcast message send) = Except.ok conns
    ∧ ComentadoPy.broadcastAttempts send message conns = Except.ok conns := by
  refine ⟨mainBroadcastAttempts_ok send message conns, ?_,
    comBroadcastAttempts_ok send message conns⟩
  simp [MainPy.applyOp, mainBroadcastAttempts_ok, Except.map]

/-- C5: the claim states that disconnect is idempotent, but the code uses
the naive Python list.remove, which raises ValueError when the connection is
absent.  A first disconnect of a registered connection succeeds; a second
disconnect of the same connection (registry now empty) raises instead of
being a no-op, in both source files.  The spec itself flags this as a defect
of the reference implementation, so the code, not the claim, is wrong. -/
theorem c5_disconnect_absent_raises :
    MainPy.applyOp ([3] : List Nat) (ManagerOp.disconnect 3) = Except.ok []
    ∧ MainPy.applyOp ([] : List Nat) (ManagerOp.disconnect 3)
        = Except.error "ValueError"
    ∧ ComentadoPy.applyOp ([] : List Nat) (ManagerOp.disconnect 3)
        = Except.error "ValueError" :=
  ⟨rfl, rfl, rfl⟩

/-- C6: broadcast never mutates the connection registry: for every registry
state and every message the state after broadcast equals the state before,
even when deliveries fail; and any non-disconnect operation that succeeds
keeps every previously registered connection registered, so a connection is
removed only by the explicit disconnect path. -/
theorem c6_broadcast_frame {Conn : Type} [DecidableEq Conn]
    (s t : List Conn) (message : String)
    (send : Conn → String → Except String Unit) (op : ManagerOp Conn)
    (hop : notDisconnect op) (happ : MainPy.applyOp s op = Except.ok t) :
    MainPy.applyOp s (ManagerOp.broadcast message send) = Except.ok s
    ∧ ComentadoPy.applyOp s (ManagerOp.broadcast message send) = Except.ok s
    ∧ ∀ x, x ∈ s → x ∈ t := by
  refine ⟨?_, ?_, ?_⟩
  · simp [MainPy.applyOp, mainBroadcastAttempts_ok, Except.map]
  · simp [ComentadoPy.applyOp, comBroadcastAttempts_ok, Except.map]
  · cases op with
    | connect c =>
      simp [MainPy.applyOp] at happ
      intro x hx
      rw [← happ]
      exact List.mem_append_left _ hx
    | disconnect c => exact hop.elim
    | broadcast m send2 =>
      simp [MainPy.applyOp, mainBroadcastAttempts_ok, Except.map] at happ
      intro x hx
      rw [← happ]
      exact hx

/-- C6 witness: concrete instantiation with registry [1, 2], a send
behaviour that always fails, and a successful connect operation. -/
theorem c6_broadcast_frame_witness :
    MainPy.applyOp ([1, 2] : List Nat)
        (ManagerOp.broadcast "m" (fun _ _ => Except.error "closed"))
      = Except.ok [1, 2]
    ∧ ComentadoPy.applyOp ([1, 2] : List Nat)
        (ManagerOp.broadcast "m" (fun _ _ => Except.error "closed"))
      = Except.ok [1, 2]
    ∧ ∀ x, x ∈ ([1, 2] : List Nat) → x ∈ ([1, 2, 3] : List Nat) :=
  c6_broadcast_frame [1, 2] [1, 2, 3] "m" (fun _ _ => Except.error "closed")
    (ManagerOp.connect 3) trivial rfl

/-- C7 counterexample: the two source files do not implement the same
logic.  On the same upload request (file evil.exe, user u) main.py stores
the file and answers ok while main_comentado.py rejects it, and on the same
download request (filename ../../etc/passwd, no partition directory yet)
main.py answers 404 not-found while main_comentado.py answers 403
access-denied. -/
theorem c7_counterexample :
    MainPy.upload_file [] (FS.mk []) (UpFile.mk (some "evil.exe") [9] 0) "u" "f1"
      ≠ ComentadoPy.upload_file [] (FS.mk []) (UpFile.mk (some "evil.exe") [9] 0) "u" "f1"
    ∧ MainPy.get_file [] (FS.mk [(["etc", "passwd"], Entry.file [42])]) "u" "../../etc/passwd"
      ≠ ComentadoPy.get_file [] (FS.mk [(["etc", "passwd"], Entry.file [42])]) "u" "../../etc/passwd" := by
  exact ⟨by decide, by decide⟩

/-- C7 (amended): the connection manager and the two listing endpoints of
main.py and main_comentado.py implement identical logic, but upload_file and
get_file differ: main_comentado.py adds the extension allow-list and size
validation to upload and a resolved-path string check to download, both
absent from main.py, as witnessed by concrete diverging requests. -/
theorem c7_amended :
    (∀ (s : List Nat) (op : ManagerOp Nat),
      MainPy.applyOp s op = ComentadoPy.applyOp s op)
    ∧ (∀ (cwd : PathC) (fs : FS) (u : String),
      MainPy.list_user_files cwd fs u = ComentadoPy.list_user_files cwd fs u)
    ∧ (∀ (cwd : PathC) (fs : FS),
      MainPy.list_all_files cwd fs = ComentadoPy.list_all_files cwd fs)
    ∧ MainPy.upload_file [] (FS.mk []) (UpFile.mk (some "evil.exe") [9] 0) "u" "f1"
        ≠ ComentadoPy.upload_file [] (FS.mk []) (UpFile.mk (some "evil.exe") [9] 0) "u" "f1"
    ∧ MainPy.get_file [] (FS.mk [(["etc", "passwd"], Entry.file [42])]) "u" "../../etc/passwd"
        ≠ ComentadoPy.get_file [] (FS.mk [(["etc", "passwd"], Entry.file [42])]) "u" "../../etc/passwd" :=
  ⟨fun s op => applyOp_eqv s op, fun _ _ _ => rfl, fun _ _ => rfl, by decide, by decide⟩

/-- C1 counterexample: the claim fails on the code at concrete inputs.
First, main.py performs no containment check at all: in a file system where
the uploads root and the uploads/u partition exist (the state after any
upload by user u) and /etc/passwd exists, the request user u, filename
../../etc/passwd stats successfully component by component, resolves to
/etc/passwd, which is outside the root (underDir is false), and main.py
serves the file bytes instead of rejecting with 403.  Second, even the
check in main_comentado.py is a string comparison of rendered paths: with
cwd /app, user ../uploads2, filename x.txt the candidate resolves to
/app/uploads2/x.txt, outside the root /app/uploads, but its string starts
with the root string, so the file is served, not rejected. -/
theorem c1_counterexample :
    underDir (resolve [] ["uploads"])
        (resolve [] (["uploads"] ++ splitSlash "u" ++ splitSlash "../../etc/passwd")) = false
    ∧ MainPy.get_file []
        (FS.mk [(["uploads"], Entry.dir), (["uploads", "u"], Entry.dir),
                (["etc"], Entry.dir), (["etc", "passwd"], Entry.file [42])])
        "u" "../../etc/passwd"
        = Except.ok [42]
    ∧ underDir (resolve ["app"] ["uploads"])
        (ComentadoPy.resolvedPath ["app"] "../uploads2" "x.txt") = false
    ∧ ComentadoPy.get_file ["app"]
        (FS.mk [(["app"], Entry.dir), (["app", "uploads"], Entry.dir),
                (["app", "uploads2"], Entry.dir),
                (["app", "uploads2", "x.txt"], Entry.file [7])])
        "../uploads2" "x.txt"
        = Except.ok [7] :=
  ⟨by decide, by decide, by decide, by decide⟩

/-- C1 (amended): only main_comentado.py checks containment, and the check
it performs is a string comparison: whenever the rendered string of the
canonicalized candidate path does not start with the rendered string of the
canonical storage root, get_file rejects with the access-denied
classification 403 and serves no bytes.  This blocks dot-dot traversal onto
paths outside that string prefix, but a sibling path whose rendered string
extends the root string is still served, and main.py performs no
containment check at all: whenever every component on the unresolved
request path exists (as once the user partition directory exists), main.py
serves the resolved target even outside the root, and it answers 404, not
403, when an intermediate component is missing (see the counterexample). -/
theorem c1_amended (cwd : PathC) (fs : FS) (user_id filename : String)
    (h : strStartsWith (renderPath (ComentadoPy.resolvedPath cwd user_id filename)).data
        (renderPath (resolve cwd ["uploads"])).data = false) :
    ComentadoPy.get_file cwd fs user_id filename
      = Except.error (HErr.forbidden "Acceso denegado") := by
  simp [ComentadoPy.get_file, h]

/-- C1 witness: the dot-dot traversal request is rejected with 403 by
main_comentado.py. -/
theorem c1_amended_witness :
    strStartsWith (renderPath (ComentadoPy.resolvedPath [] "u" "../../etc/passwd")).data
        (renderPath (resolve [] ["uploads"])).data = false
    ∧ ComentadoPy.get_file [] (FS.mk [(["etc", "passwd"], Entry.file [42])]) "u" "../../etc/passwd"
        = Except.error (HErr.forbidden "Acceso denegado") :=
  ⟨by decide, c1_amended [] (FS.mk [(["etc", "passwd"], Entry.file [42])])
    "u" "../../etc/passwd" (by decide)⟩

/-- C3 counterexample: the claim quantifies over the upload pipeline of both
source files, but main.py has no extension check: the upload of evil.exe,
whose lowercased suffix is not in the allow-list, is accepted by
main.py (response ok), the owner partition directory is created and the
bytes are persisted, so the filesystem is not left unchanged. -/
theorem c3_counterexample :
    strToLower (pySuffix "evil.exe") ∉ ComentadoPy.ALLOWED_EXTENSIONS
    ∧ MainPy.upload_file [] (FS.mk []) (UpFile.mk (some "evil.exe") [9] 0) "u" "f1"
        = (Except.ok (UploadResp.mk "f1" "evil.exe" "u"
            "http://127.0.0.1:8000/files/u/f1_evil.exe"),
           FS.mk [(["uploads", "u"], Entry.dir),
                  (["uploads", "u", "f1_evil.exe"], Entry.file [9])])
    ∧ FS.mk [(["uploads", "u"], Entry.dir),
             (["uploads", "u", "f1_evil.exe"], Entry.file [9])] ≠ FS.mk [] :=
  ⟨by decide, by decide, by decide⟩

/-- C3 (amended): in main_comentado.py, every upload with a non-empty
user_id whose file-name extension (lowercased final suffix) is not in the
fixed allow-list is rejected with the disallowed-type client-error
classification 400 and the filesystem is returned unchanged: no partition
directory is created and no bytes are persisted.  main.py performs no
extension check and persists such uploads (see the counterexample). -/
theorem c3_amended (cwd : PathC) (fs : FS) (file : UpFile)
    (user_id file_id : String) (hu : user_id ≠ "")
    (hext : extOf file ∉ ComentadoPy.ALLOWED_EXTENSIONS) :
    ComentadoPy.upload_file cwd fs file user_id file_id
      = (Except.error (HErr.badRequest "Tipo de archivo no permitido"), fs) := by
  simp [ComentadoPy.upload_file, hu, hext]

/-- C3 witness: the evil.exe upload is rejected by main_comentado.py with
no filesystem change. -/
theorem c3_amended_witness :
    (("u" : String) ≠ "")
    ∧ extOf (UpFile.mk (some "evil.exe") [9] 0) ∉ ComentadoPy.ALLOWED_EXTENSIONS
    ∧ ComentadoPy.upload_file [] (FS.mk []) (UpFile.mk (some "evil.exe") [9] 0) "u" "f1"
        = (Except.error (HErr.badRequest "Tipo de archivo no permitido"), FS.mk []) :=
  ⟨by decide, by decide,
    c3_amended [] (FS.mk []) (UpFile.mk (some "evil.exe") [9] 0) "u" "f1"
      (by decide) (by decide)⟩

/-- C4 counterexample: the claim quantifies over every oversized upload, but
the earlier checks of main_comentado.py short-circuit first: an upload of
more than 10 MiB whose extension is not allow-listed is answered with the
400 disallowed-type classification, and one with an empty user_id with the
400 missing-identity classification, not with 413. -/
theorem c4_counterexample :
    (List.replicate (ComentadoPy.MAX_FILE_SIZE + 1) (0 : Nat)).length
        > ComentadoPy.MAX_FILE_SIZE
    ∧ ComentadoPy.upload_file [] (FS.mk [])
        (UpFile.mk (some "a.exe") (List.replicate (ComentadoPy.MAX_FILE_SIZE + 1) 0) 0) "u" "f1"
      = (Except.error (HErr.badRequest "Tipo de archivo no permitido"), FS.mk [])
    ∧ ComentadoPy.upload_file [] (FS.mk [])
        (UpFile.mk (some "b.txt") (List.replicate (ComentadoPy.MAX_FILE_SIZE + 1) 0) 0) "" "f1"
      = (Except.error (HErr.badRequest "user_id is required"), FS.mk []) := by
  refine ⟨?_, rfl, rfl⟩
  rw [List.length_replicate]
  exact Nat.lt_succ_self _

/-- C4 (amended): in main_comentado.py, every upload with a non-empty
user_id and an allow-listed extension whose payload exceeds 10 MiB
(10*1024*1024 bytes) is rejected with the payload-too-large classification
413 and the filesystem is returned unchanged; the size is determined before
persisting by seek-to-end, record position (tell), seek-to-start; and a
payload of exactly 10*1024*1024 bytes is not rejected by the size check
(the upload completes with an ok response). -/
theorem c4_amended (cwd : PathC) (fs : FS) (fileA fileB : UpFile)
    (user_id file_id : String) (hu : user_id ≠ "")
    (hextA : extOf fileA ∈ ComentadoPy.ALLOWED_EXTENSIONS)
    (hsizeA : fileA.content.length > ComentadoPy.MAX_FILE_SIZE)
    (hextB : extOf fileB ∈ ComentadoPy.ALLOWED_EXTENSIONS)
    (hsizeB : fileB.content.length = ComentadoPy.MAX_FILE_SIZE) :
    ComentadoPy.upload_file cwd fs fileA user_id file_id
      = (Except.error (HErr.payloadTooLarge "Archivo muy grande. Tamano maximo: 10MB"), fs)
    ∧ pyTell (seekEnd fileA) = fileA.content.length
    ∧ (seekStart (seekEnd fileA)).pos = 0
    ∧ ∃ resp fs2, ComentadoPy.upload_file cwd fs fileB user_id file_id
        = (Except.ok resp, fs2) := by
  refine ⟨?_, rfl, rfl, ?_⟩
  · simp [ComentadoPy.upload_file, hu, hextA, pyTell, seekEnd, hsizeA]
  · refine ⟨_, _, com_upload_ok cwd fs fileB user_id file_id hu hextB ?_⟩
    rw [hsizeB]
    exact lt_irrefl _

/-- C4 witness: concrete oversized and exactly-at-the-ceiling payloads with
an allow-listed extension. -/
theorem c4_amended_witness :
    (("u" : String) ≠ "")
    ∧ extOf (UpFile.mk (some "a.txt") (List.replicate (ComentadoPy.MAX_FILE_SIZE + 1) 0) 0)
        ∈ ComentadoPy.ALLOWED_EXTENSIONS
    ∧ (List.replicate (ComentadoPy.MAX_FILE_SIZE + 1) (0 : Nat)).length
        > ComentadoPy.MAX_FILE_SIZE
    ∧ extOf (UpFile.mk (some "b.txt") (List.replicate ComentadoPy.MAX_FILE_SIZE 0) 0)
        ∈ ComentadoPy.ALLOWED_EXTENSIONS
    ∧ (List.replicate ComentadoPy.MAX_FILE_SIZE (0 : Nat)).length
        = ComentadoPy.MAX_FILE_SIZE
    ∧ (ComentadoPy.upload_file [] (FS.mk [])
        (UpFile.mk (some "a.txt") (List.replicate (ComentadoPy.MAX_FILE_SIZE + 1) 0) 0) "u" "f1"
      = (Except.error (HErr.payloadTooLarge "Archivo muy grande. Tamano maximo: 10MB"), FS.mk [])
    ∧ pyTell (seekEnd (UpFile.mk (some "a.txt") (List.replicate (ComentadoPy.MAX_FILE_SIZE + 1) 0) 0))
        = (List.replicate (ComentadoPy.MAX_FILE_SIZE + 1) (0 : Nat)).length
    ∧ (seekStart (seekEnd (UpFile.mk (some "a.txt")
        (List.replicate (ComentadoPy.MAX_FILE_SIZE + 1) 0) 0))).pos = 0
    ∧ ∃ resp fs2, ComentadoPy.upload_file [] (FS.mk [])
        (UpFile.mk (some "b.txt") (List.replicate ComentadoPy.MAX_FILE_SIZE 0) 0) "u" "f1"
      = (Except.ok resp, fs2)) :=
  ⟨by decide, by decide,
    by rw [List.length_replicate]; exact Nat.lt_succ_self _,
    by decide, by rw [List.length_replicate],
    c4_amended [] (FS.mk [])
      (UpFile.mk (some "a.txt") (List.replicate (ComentadoPy.MAX_FILE_SIZE + 1) 0) 0)
      (UpFile.mk (some "b.txt") (List.replicate ComentadoPy.MAX_FILE_SIZE 0) 0) "u" "f1"
      (by decide) (by decide)
      (by rw [List.length_replicate]; exact Nat.lt_succ_self _)
      (by decide) (by rw [List.length_replicate])⟩

/-- C8: round trip between storage naming and listing.  For every original
filename, every generated id without an underscore (a UUID4 string contains
none) and every non-empty user: the display-name recovery of the listing
endpoints inverts safe_filename; the upload stores the file under
safe_filename (the id, an underscore, then the original name) and answers
with the matching URL; and listing the resulting partition returns exactly
the original name together with the stored name. -/
theorem c8_round_trip (file_id orig user : String) (content : List Nat)
    (hid : '_' ∉ file_id.data) (hu : user ≠ "") :
    recoverName (safe_filename file_id orig) = orig
    ∧ MainPy.upload_file [] (FS.mk []) (UpFile.mk (some orig) content 0) user file_id
      = (Except.ok (UploadResp.mk file_id orig user
            (mkUrl user (safe_filename file_id orig))),
         FS.mk [(["uploads", user], Entry.dir),
                (["uploads", user, safe_filename file_id orig], Entry.file content)])
    ∧ MainPy.list_user_files []
        (FS.mk [(["uploads", user], Entry.dir),
                (["uploads", user, safe_filename file_id orig], Entry.file content)]) user
      = [FileEntry.mk user orig (safe_filename file_id orig)
          (mkUrl user (safe_filename file_id orig))] := by
  have hrec := recover_safe_filename file_id orig hid
  refine ⟨hrec, ?_, ?_⟩
  · simp [MainPy.upload_file, hu, mkdirExistOk, writeFile, pathExists, readRest, fStr]
  · simp [MainPy.list_user_files, pathExists, isDirAt, childrenOf, lastName,
      List.dropLast, List.filterMap_cons, hrec]

/-- C8 witness: a concrete round trip for user alice, id f1 and original
name my_file.txt (the original name may itself contain underscores). -/
theorem c8_round_trip_witness :
    ('_' ∉ ("f1" : String).data) ∧ (("alice" : String) ≠ "")
    ∧ (recoverName (safe_filename "f1" "my_file.txt") = "my_file.txt"
    ∧ MainPy.upload_file [] (FS.mk []) (UpFile.mk (some "my_file.txt") [1, 2] 0) "alice" "f1"
      = (Except.ok (UploadResp.mk "f1" "my_file.txt" "alice"
            (mkUrl "alice" (safe_filename "f1" "my_file.txt"))),
         FS.mk [(["uploads", "alice"], Entry.dir),
                (["uploads", "alice", safe_filename "f1" "my_file.txt"], Entry.file [1, 2])])
    ∧ MainPy.list_user_files []
        (FS.mk [(["uploads", "alice"], Entry.dir),
                (["uploads", "alice", safe_filename "f1" "my_file.txt"], Entry.file [1, 2])]) "alice"
      = [FileEntry.mk "alice" "my_file.txt" (safe_filename "f1" "my_file.txt")
          (mkUrl "alice" (safe_filename "f1" "my_file.txt"))]) :=
  ⟨by decide, by decide,
    c8_round_trip "f1" "my_file.txt" "alice" [1, 2] (by decide) (by decide)⟩

/-- C9: for every user whose partition directory does not exist, or whose
partition contains no files (only subdirectories, or nothing), the
per-user listing returns the empty sequence, in both source files; the
function is total, so no failure is possible. -/
theorem c9_listing_empty (cwd : PathC) (fs : FS) (user_id : String)
    (h : ¬ pathExists fs (cwd ++ ["uploads", user_id])
         ∨ ∀ e ∈ childrenOf fs (cwd ++ ["uploads", user_id]), e.2 = Entry.dir) :
    MainPy.list_user_files cwd fs user_id = []
    ∧ ComentadoPy.list_user_files cwd fs user_id = [] := by
  constructor
  · rw [MainPy.list_user_files]
    rcases h with h | h
    · rw [if_neg (fun hc => h hc.1)]
    · by_cases hc : pathExists fs (cwd ++ ["uploads", user_id])
          ∧ isDirAt fs (cwd ++ ["uploads", user_id])
      · rw [if_pos hc]
        refine filterMap_nil_of _ _ ?_
        intro e he
        have hk := h e he
        rw [hk]
      · rw [if_neg hc]
  · rw [ComentadoPy.list_user_files]
    rcases h with h | h
    · rw [if_neg (fun hc => h hc.1)]
    · by_cases hc : pathExists fs (cwd ++ ["uploads", user_id])
          ∧ isDirAt fs (cwd ++ ["uploads", user_id])
      · rw [if_pos hc]
        refine filterMap_nil_of _ _ ?_
        intro e he
        have hk := h e he
        rw [hk]
      · rw [if_neg hc]

/-- C9 witness: an unknown user on an empty file system. -/
theorem c9_listing_empty_witness :
    (¬ pathExists (FS.mk []) ([] ++ ["uploads", "bob"])
      ∨ ∀ e ∈ childrenOf (FS.mk []) ([] ++ ["uploads", "bob"]), e.2 = Entry.dir)
    ∧ (MainPy.list_user_files [] (FS.mk []) "bob" = []
       ∧ ComentadoPy.list_user_files [] (FS.mk []) "bob" = []) :=
  ⟨Or.inl (by decide), c9_listing_empty [] (FS.mk []) "bob" (Or.inl (by decide))⟩

/-- C10 (implicit claim): an upload whose filename has no extension (no dot
in the final component, including an empty or missing filename) has the
empty string as computed extension, which is not in the allow-list, so
main_comentado.py rejects it with the disallowed-type classification 400
and the filesystem is unchanged; and only the final extension is examined,
so a.exe.txt passes the extension check (the upload completes) while
a.txt.exe is rejected. -/
theorem c10_no_extension_rejected (cwd : PathC) (fs : FS) (file : UpFile)
    (user_id file_id : String) (hu : user_id ≠ "") (h : noDotName file.filename) :
    extOf file = ""
    ∧ "" ∉ ComentadoPy.ALLOWED_EXTENSIONS
    ∧ ComentadoPy.upload_file cwd fs file user_id file_id
        = (Except.error (HErr.badRequest "Tipo de archivo no permitido"), fs)
    ∧ extOf (UpFile.mk (some "a.exe.txt") [1] 0) ∈ ComentadoPy.ALLOWED_EXTENSIONS
    ∧ (∃ resp fs2, ComentadoPy.upload_file [] (FS.mk [])
        (UpFile.mk (some "a.exe.txt") [1] 0) "u" "f1" = (Except.ok resp, fs2))
    ∧ ComentadoPy.upload_file [] (FS.mk [])
        (UpFile.mk (some "a.txt.exe") [1] 0) "u" "f1"
        = (Except.error (HErr.badRequest "Tipo de archivo no permitido"), FS.mk []) := by
  have he := extOf_empty_of_noDot file h
  have hnot : ("" : String) ∉ ComentadoPy.ALLOWED_EXTENSIONS := by decide
  refine ⟨he, hnot, ?_, by decide, ?_, by decide⟩
  · have hext : extOf file ∉ ComentadoPy.ALLOWED_EXTENSIONS := by rw [he]; exact hnot
    simp [ComentadoPy.upload_file, hu, hext]
  · exact ⟨UploadResp.mk "f1" "a.exe.txt" "u" "http://127.0.0.1:8000/files/u/f1_a.exe.txt",
      FS.mk [(["uploads", "u"], Entry.dir),
             (["uploads", "u", "f1_a.exe.txt"], Entry.file [1])], by decide⟩

/-- C10 witness: a filename with no dot is rejected. -/
theorem c10_no_extension_rejected_witness :
    (("u" : String) ≠ "") ∧ noDotName (some "README")
    ∧ (extOf (UpFile.mk (some "README") [2] 0) = ""
    ∧ "" ∉ ComentadoPy.ALLOWED_EXTENSIONS
    ∧ ComentadoPy.upload_file [] (FS.mk []) (UpFile.mk (some "README") [2] 0) "u" "f1"
        = (Except.error (HErr.badRequest "Tipo de archivo no permitido"), FS.mk [])
    ∧ extOf (UpFile.mk (some "a.exe.txt") [1] 0) ∈ ComentadoPy.ALLOWED_EXTENSIONS
    ∧ (∃ resp fs2, ComentadoPy.upload_file [] (FS.mk [])
        (UpFile.mk (some "a.exe.txt") [1] 0) "u" "f1" = (Except.ok resp, fs2))
    ∧ ComentadoPy.upload_file [] (FS.mk [])
        (UpFile.mk (some "a.txt.exe") [1] 0) "u" "f1"
        = (Except.error (HErr.badRequest "Tipo de archivo no permitido"), FS.mk [])) :=
  ⟨by decide, by decide,
    c10_no_extension_rejected [] (FS.mk []) (UpFile.mk (some "README") [2] 0) "u" "f1"
      (by decide) (by decide)⟩
